import Mathlib

/-!
Verification development for the smartchatbot repository.

The socket session state machine is embedded from
`client/src/context/SocketContextProvider.jsx`: the inbound event handlers
registered in the mount effect become a pure `step` function on an explicit
client-state record, and processing a sequence of inbound events is a left
fold of `step`.  The catalog-search adapter (`searchForBook` and its helper
extractors) and the reservation-cancellation tool
(`CancelReservationToolService.toolRunForLlm`) are embedded as pure
functions, with the external HTTP calls (`performSearch`,
`httpService.axiosRef.post`) supplied as explicit outcome parameters.
-/

namespace SocketClient

/-- A message in the conversation log: `{id?, text, sender}` as built by the
client (`addMessage` / the welcome- and fallback-message literals). -/
structure Message where
  id : Option String
  text : String
  sender : String
  deriving Repr, DecidableEq

/-- The client-side state visible to the handlers in
`SocketContextProvider.jsx`: the message log, typing flag, connection flags
and history snapshot (React state), the `curSession` ref, plus the channel
bookkeeping (`socketPresent` models whether `socket.current` is non-null,
`socketOpen` whether the channel has been (re)opened via `connect()`,
`emitted` the list of outbound `(event, payload)` emissions). -/
structure ClientState where
  messages : List Message
  isTyping : Bool
  isConnected : Bool
  attemptedConnection : Bool
  conversationHistory : String
  curSession : Bool
  socketPresent : Bool
  socketOpen : Bool
  emitted : List (String × String)
  deriving Repr, DecidableEq

/-- The fixed welcome message injected on the first `connect` of a logical
session (lines 25–28 of `SocketContextProvider.jsx`). -/
def welcomeMessage : Message :=
  { id := none
    text := "Hi this is the Library Smart Chatbot. How may I help you?"
    sender := "chatbot" }

/-- The fixed fallback message appended by the `unexpected_error` handler. -/
def fallbackMessage : Message :=
  { id := none
    text := "Some unexpected errors happened. Please click the button at the bottom to continue your conversation with the real librarian.\n"
    sender := "chatbot" }

/-- Inbound socket events handled by the listeners registered in the mount
effect of `SocketContextProvider.jsx`. -/
inductive SocketEvent where
  | connect
  | message (messageId : String) (message : String)
  | unexpectedError (payload : String)
  | disconnect (reason : String)
  | connectError
  | connectTimeout
  deriving Repr, DecidableEq

/-- Modelled from the spec: `addMessage(text, sender, id?)` lives in
`MessageContextProvider.jsx`, which is not among the provided sources; §4.3
of the spec defines the store operation `append(message, sender, id?)` as
appending the one message to the ordered log. -/
def addMessage (s : ClientState) (text : String) (sender : String)
    (id : Option String := none) : ClientState :=
  { s with messages := s.messages ++ [{ id := id, text := text, sender := sender }] }

/-- Modelled from the spec: `resetState()` lives in
`MessageContextProvider.jsx`, which is not among the provided sources; per
§4.2/§4.3 of the spec the reset clears the entire conversation state store:
message log, typing flag and history snapshot. -/
def resetState (s : ClientState) : ClientState :=
  { s with messages := [], isTyping := false, conversationHistory := "" }

/-- Body of the `unexpected_error` listener (lines 49–55 / 57–63): clear the
typing flag, append the fallback message, snapshot the payload into
`conversationHistory`, mark disconnected. -/
def unexpectedErrorBody (s : ClientState) (payload : String) : ClientState :=
  let s1 := addMessage { s with isTyping := false } fallbackMessage.text "chatbot"
  { s1 with conversationHistory := payload, isConnected := false }

/-- One inbound event dispatched to the handlers of
`SocketContextProvider.jsx`.  The `unexpected_error` listener is registered
twice in the source (two identical `socket.current.on('unexpected_error', ...)`
blocks), so its body runs twice per delivered event. -/
def step (s : ClientState) (e : SocketEvent) : ClientState :=
  match e with
  | .connect =>
      let s1 :=
        if s.curSession then
          { s with messages := s.messages ++ [welcomeMessage], curSession := false }
        else s
      { s1 with isConnected := true, attemptedConnection := true, isTyping := false }
  | .message messageId message =>
      addMessage { s with isTyping := false } message "chatbot" (some messageId)
  | .unexpectedError payload =>
      unexpectedErrorBody (unexpectedErrorBody s payload) payload
  | .disconnect reason =>
      if reason = "io client disconnect" then
        { resetState s with curSession := true, socketOpen := true }
      else
        { s with isConnected := false, attemptedConnection := true }
  | .connectError =>
      { s with isConnected := false, attemptedConnection := true }
  | .connectTimeout =>
      { s with isConnected := false, attemptedConnection := true }

/-- Processing a sequence of inbound events in delivery order. -/
def run (s : ClientState) (es : List SocketEvent) : ClientState :=
  es.foldl step s

/-- Embedding of `sendUserMessage` (lines 97–101): emits a `message` event iff the socket
ref is present; it never touches the conversation log. -/
def sendUserMessage (s : ClientState) (message : String) : ClientState :=
  if s.socketPresent then
    { s with emitted := s.emitted ++ [("message", message)] }
  else s

/-- The client state right after mount: empty log, `curSession` armed,
no connection yet, socket ref assigned by the effect. -/
def initState : ClientState :=
  { messages := []
    isTyping := false
    isConnected := false
    attemptedConnection := false
    conversationHistory := ""
    curSession := true
    socketPresent := true
    socketOpen := false
    emitted := [] }

/-- An event is a `connect` or a transient (non-reset) `disconnect`. -/
def transientOrConnect (e : SocketEvent) : Prop :=
  e = .connect ∨ ∃ r, r ≠ "io client disconnect" ∧ e = .disconnect r

instance (e : SocketEvent) : Decidable (transientOrConnect e) := by
  unfold transientOrConnect
  cases e with
  | disconnect r =>
      by_cases hr : r = "io client disconnect"
      · exact isFalse (by
          rintro (h | ⟨r', hr', h⟩)
          · exact SocketEvent.noConfusion h
          · cases h; exact hr' hr)
      · exact isTrue (Or.inr ⟨r, hr, rfl⟩)
  | connect => exact isTrue (Or.inl rfl)
  | message a b => exact isFalse (by rintro (h | ⟨r', hr', h⟩) <;> cases h)
  | unexpectedError p => exact isFalse (by rintro (h | ⟨r', hr', h⟩) <;> cases h)
  | connectError => exact isFalse (by rintro (h | ⟨r', hr', h⟩) <;> cases h)
  | connectTimeout => exact isFalse (by rintro (h | ⟨r', hr', h⟩) <;> cases h)

/-- Number of copies of the welcome message in the log. -/
def welcomeCount (s : ClientState) : Nat :=
  s.messages.count welcomeMessage

/-- Whether a sequence of events contains a `connect`. -/
def hasConnect (es : List SocketEvent) : Bool :=
  es.any (· == SocketEvent.connect)

/-- A physical channel object: its registered listener list (socket.io `on`
appends, `off ev` removes every listener for `ev`) and whether it is open. -/
structure SocketRef where
  listeners : List String
  connected : Bool
  deriving Repr, DecidableEq

namespace SocketRef

/-- Model of `socket.on(ev, handler)`: appends a listener for `ev` (named `onEvent`
here because `on` is reserved in Lean). -/
def onEvent (s : SocketRef) (ev : String) : SocketRef :=
  { s with listeners := s.listeners ++ [ev] }

/-- Model of `socket.off(ev)`: removes every listener registered for `ev`. -/
def off (s : SocketRef) (ev : String) : SocketRef :=
  { s with listeners := s.listeners.filter (· ≠ ev) }

/-- Model of `socket.disconnect()`: closes the channel. -/
def close (s : SocketRef) : SocketRef :=
  { s with connected := false }

end SocketRef

/-- The listener registrations performed by the mount effect of
`SocketContextProvider.jsx`, in source order; `unexpected_error` is
registered twice (lines 49–55 and 57–63). -/
def registerHandlers (s : SocketRef) : SocketRef :=
  ((((((s.onEvent "connect").onEvent "message").onEvent
      "unexpected_error").onEvent "unexpected_error").onEvent
      "disconnect").onEvent "connect_error").onEvent "connect_timeout"

/-- The effect cleanup (lines 86–93): `off('message')`, `off('disconnect')`,
`off('connect_error')`, `off('connect_timeout')`, then `disconnect()` twice. -/
def cleanup (s : SocketRef) : SocketRef :=
  (((((s.off "message").off "disconnect").off "connect_error").off
      "connect_timeout").close).close

/-- A freshly created channel object with no listeners. -/
def freshSocket : SocketRef :=
  { listeners := [], connected := true }

lemma run_cons (s : ClientState) (e : SocketEvent) (es : List SocketEvent) :
    run s (e :: es) = run (step s e) es := rfl

lemma step_connect_armed (s : ClientState) (hs : s.curSession = true) :
    step s SocketEvent.connect =
      { s with messages := s.messages ++ [welcomeMessage], curSession := false,
               isConnected := true, attemptedConnection := true, isTyping := false } := by
  simp [step, hs]

lemma step_connect_disarmed (s : ClientState) (hs : s.curSession = false) :
    step s SocketEvent.connect =
      { s with isConnected := true, attemptedConnection := true, isTyping := false } := by
  simp [step, hs]

lemma step_transient_disconnect (s : ClientState) (r : String)
    (hr : r ≠ "io client disconnect") :
    step s (SocketEvent.disconnect r) =
      { s with isConnected := false, attemptedConnection := true } := by
  simp [step, hr]

lemma welcome_frozen (es : List SocketEvent) (h : ∀ e ∈ es, transientOrConnect e)
    (s : ClientState) (hs : s.curSession = false) :
    welcomeCount (run s es) = welcomeCount s ∧ (run s es).curSession = false := by
  induction es generalizing s with
  | nil => exact ⟨rfl, hs⟩
  | cons e es ih =>
    have hrest : ∀ x ∈ es, transientOrConnect x := fun x hx => h x (List.mem_cons_of_mem _ hx)
    rcases h e (List.mem_cons_self _ _) with hconn | ⟨r, hr, hdis⟩
    · subst hconn
      rw [run_cons, step_connect_disarmed s hs]
      exact ih hrest _ hs
    · subst hdis
      rw [run_cons, step_transient_disconnect s r hr]
      exact ih hrest _ hs

lemma welcome_armed (es : List SocketEvent) (h : ∀ e ∈ es, transientOrConnect e)
    (s : ClientState) (hs : s.curSession = true) :
    welcomeCount (run s es) = welcomeCount s + (if hasConnect es then 1 else 0) := by
  induction es generalizing s with
  | nil => simp [run, hasConnect]
  | cons e es ih =>
    have hrest : ∀ x ∈ es, transientOrConnect x := fun x hx => h x (List.mem_cons_of_mem _ hx)
    rcases h e (List.mem_cons_self _ _) with hconn | ⟨r, hr, hdis⟩
    · subst hconn
      rw [run_cons, step_connect_armed s hs]
      have hfroze := welcome_frozen es hrest
        { s with messages := s.messages ++ [welcomeMessage], curSession := false,
                 isConnected := true, attemptedConnection := true, isTyping := false } rfl
      rw [hfroze.1]
      simp [welcomeCount, hasConnect, List.count_append]
    · subst hdis
      rw [run_cons, step_transient_disconnect s r hr]
      have hrec := ih hrest { s with isConnected := false, attemptedConnection := true } hs
      rw [hrec]
      have hany : hasConnect (SocketEvent.disconnect r :: es) = hasConnect es := by
        simp [hasConnect, List.any_cons,
          show (SocketEvent.disconnect r == SocketEvent.connect) = false from rfl]
      rw [show welcomeCount { s with isConnected := false, attemptedConnection := true } =
            welcomeCount s from rfl, hany]

/-- C1: the welcome message is injected exactly once per logical session:
on a `connect` with `curSession` armed the log gains the welcome message and
`curSession` is disarmed; on a `connect` with `curSession` disarmed the log
is unchanged; and over any sequence of `connect` and transient (non-reset)
`disconnect` events from the freshly mounted state, the welcome message
occurs in the log exactly once when the sequence contains a `connect` and
zero times otherwise. -/
theorem welcome_once_per_session :
    (∀ s : ClientState, s.curSession = true →
        (step s SocketEvent.connect).messages = s.messages ++ [welcomeMessage] ∧
        (step s SocketEvent.connect).curSession = false) ∧
    (∀ s : ClientState, s.curSession = false →
        (step s SocketEvent.connect).messages = s.messages) ∧
    (∀ es : List SocketEvent, (∀ e ∈ es, transientOrConnect e) →
        welcomeCount (run initState es) = (if hasConnect es then 1 else 0)) := by
  refine ⟨fun s hs => ?_, fun s hs => ?_, fun es h => ?_⟩
  · rw [step_connect_armed s hs]; exact ⟨rfl, rfl⟩
  · rw [step_connect_disarmed s hs]
  · rw [welcome_armed es h initState rfl]
    simp [welcomeCount, initState]

/-- Witness for C1: three connects separated by two transient disconnects
yield exactly one welcome message in the log. -/
theorem welcome_once_per_session_witness :
    welcomeCount (run initState
      [SocketEvent.connect, SocketEvent.disconnect "transport close",
       SocketEvent.connect, SocketEvent.disconnect "ping timeout",
       SocketEvent.connect]) = 1 := by
  have h := welcome_once_per_session.2.2
    [SocketEvent.connect, SocketEvent.disconnect "transport close",
     SocketEvent.connect, SocketEvent.disconnect "ping timeout",
     SocketEvent.connect] (by decide)
  simpa using h

/-- C2: at the failing input (a single `unexpected_error` event), the
handler body runs twice — it is registered twice in the source — so the
fallback message is appended twice, while the typing flag is cleared, the
snapshot equals the payload, and `isConnected` becomes false. -/
theorem unexpected_error_double_append :
    (step initState (SocketEvent.unexpectedError "history-blob")).messages =
      [fallbackMessage, fallbackMessage] ∧
    (step initState (SocketEvent.unexpectedError "history-blob")).isTyping = false ∧
    (step initState (SocketEvent.unexpectedError "history-blob")).conversationHistory =
      "history-blob" ∧
    (step initState (SocketEvent.unexpectedError "history-blob")).isConnected = false :=
  ⟨rfl, rfl, rfl, rfl⟩

/-- C3: a `disconnect` event with reason `"io client disconnect"` resets the
store (empty log, typing flag and history snapshot cleared), re-arms
`curSession`, re-opens the channel, and handling the same event twice in a
row yields the same state as handling it once. -/
theorem client_disconnect_resets (s : ClientState) :
    (step s (SocketEvent.disconnect "io client disconnect")).messages = [] ∧
    (step s (SocketEvent.disconnect "io client disconnect")).isTyping = false ∧
    (step s (SocketEvent.disconnect "io client disconnect")).conversationHistory = "" ∧
    (step s (SocketEvent.disconnect "io client disconnect")).curSession = true ∧
    (step s (SocketEvent.disconnect "io client disconnect")).socketOpen = true ∧
    step (step s (SocketEvent.disconnect "io client disconnect"))
        (SocketEvent.disconnect "io client disconnect") =
      step s (SocketEvent.disconnect "io client disconnect") :=
  ⟨rfl, rfl, rfl, rfl, rfl, rfl⟩

/-- C4: a sequence of inbound `message` events appends exactly one chatbot
message per event, in delivery order, and any nonempty sequence leaves the
typing flag cleared. -/
theorem message_events_append (ps : List (String × String)) (s : ClientState) :
    (run s (ps.map fun p => SocketEvent.message p.1 p.2)).messages =
      s.messages ++ (ps.map fun p => { id := some p.1, text := p.2, sender := "chatbot" }) ∧
    (run s (ps.map fun p => SocketEvent.message p.1 p.2)).isTyping =
      (if ps = [] then s.isTyping else false) := by
  induction ps generalizing s with
  | nil => simp [run]
  | cons p ps ih =>
    have hstep : step s (SocketEvent.message p.1 p.2) =
        { s with isTyping := false,
                 messages := s.messages ++ [{ id := some p.1, text := p.2, sender := "chatbot" }] } := rfl
    constructor
    · rw [List.map_cons, run_cons, hstep, (ih _).1]
      simp
    · rw [List.map_cons, run_cons, hstep, (ih _).2]
      cases ps <;> simp

/-- Witness for C4 (the spec's scenario): the event
`message {messageId: "42", message: "Try the 2nd floor."}` appends exactly
that chatbot message and clears the typing flag. -/
theorem message_events_append_witness :
    (run { initState with isTyping := true }
        [SocketEvent.message "42" "Try the 2nd floor."]).messages =
      [{ id := some "42", text := "Try the 2nd floor.", sender := "chatbot" }] ∧
    (run { initState with isTyping := true }
        [SocketEvent.message "42" "Try the 2nd floor."]).isTyping = false := by
  have h := message_events_append [("42", "Try the 2nd floor.")]
    { initState with isTyping := true }
  exact ⟨by simpa using h.1, by simpa using h.2⟩

/-- C5: a transient `disconnect` (reason other than `"io client disconnect"`),
a `connect_error`, or a `connect_timeout` sets `isConnected := false` and
`attemptedConnection := true` and changes nothing else: log, typing flag,
history snapshot and `curSession` are untouched. -/
theorem transient_failures_frame (s : ClientState) (reason : String)
    (hr : reason ≠ "io client disconnect") :
    step s (SocketEvent.disconnect reason) =
      { s with isConnected := false, attemptedConnection := true } ∧
    step s SocketEvent.connectError =
      { s with isConnected := false, attemptedConnection := true } ∧
    step s SocketEvent.connectTimeout =
      { s with isConnected := false, attemptedConnection := true } :=
  ⟨step_transient_disconnect s reason hr, rfl, rfl⟩

/-- Witness for C5 at a concrete state and reason. -/
theorem transient_failures_frame_witness :
    ("transport close" ≠ "io client disconnect") ∧
    step initState (SocketEvent.disconnect "transport close") =
      { initState with isConnected := false, attemptedConnection := true } :=
  ⟨by decide, (transient_failures_frame initState "transport close" (by decide)).1⟩

/-- C6 counterexample: in the mounted state the socket ref is present, so
`sendUserMessage` emits a `message` event even though `isConnected` is
false — the claim that it is a no-op whenever `isConnected = false` fails. -/
theorem send_while_disconnected_emits :
    initState.isConnected = false ∧
    (sendUserMessage initState "Where is the library?").emitted ≠ initState.emitted := by
  refine ⟨rfl, ?_⟩
  simp [sendUserMessage, initState]

/-- C6 amended: `sendUserMessage` is a no-op exactly when the socket ref is
absent; when the ref is present it emits the `message` event regardless of
`isConnected`; in every case the conversation log is unchanged. -/
theorem sendUserMessage_spec (s : ClientState) (m : String) :
    (s.socketPresent = false → sendUserMessage s m = s) ∧
    (s.socketPresent = true →
      sendUserMessage s m = { s with emitted := s.emitted ++ [("message", m)] }) ∧
    (sendUserMessage s m).messages = s.messages := by
  refine ⟨fun h => ?_, fun h => ?_, ?_⟩
  · simp [sendUserMessage, h]
  · simp [sendUserMessage, h]
  · by_cases h : s.socketPresent <;> simp [sendUserMessage, h]

/-- Witness for C6 amended at a concrete state and text. -/
theorem sendUserMessage_spec_witness :
    initState.socketPresent = true ∧
    sendUserMessage initState "hello" =
      { initState with emitted := [("message", "hello")] } := by
  refine ⟨rfl, ?_⟩
  have h := (sendUserMessage_spec initState "hello").2.1 rfl
  simpa using h

/-- C7 counterexample: after the mount effect's registrations, the cleanup
leaves the `connect` and `unexpected_error` listeners attached — the claim
that all inbound listeners are detached fails. -/
theorem cleanup_leaves_listeners :
    "connect" ∈ (cleanup (registerHandlers freshSocket)).listeners ∧
    "unexpected_error" ∈ (cleanup (registerHandlers freshSocket)).listeners := by
  decide

/-- C7 amended: the cleanup detaches the `message`, `disconnect`,
`connect_error` and `connect_timeout` listeners (but not `connect` or
`unexpected_error`), closes the channel (calling `disconnect()` twice), is
idempotent, and is safe on a channel object that was never established. -/
theorem cleanup_spec (s : SocketRef) :
    (cleanup s).connected = false ∧
    "message" ∉ (cleanup s).listeners ∧
    "disconnect" ∉ (cleanup s).listeners ∧
    "connect_error" ∉ (cleanup s).listeners ∧
    "connect_timeout" ∉ (cleanup s).listeners ∧
    cleanup (cleanup s) = cleanup s ∧
    cleanup { listeners := [], connected := false } =
      { listeners := [], connected := false } := by
  refine ⟨rfl, ?_, ?_, ?_, ?_, ?_, by decide⟩
  · simp [cleanup, SocketRef.off, SocketRef.close, List.mem_filter]
  · simp [cleanup, SocketRef.off, SocketRef.close, List.mem_filter]
  · simp [cleanup, SocketRef.off, SocketRef.close, List.mem_filter]
  · simp [cleanup, SocketRef.off, SocketRef.close, List.mem_filter]
  · show SocketRef.mk _ _ = SocketRef.mk _ _
    simp only [cleanup, SocketRef.off, SocketRef.close]
    congr 1
    simp only [List.filter_filter]
    apply List.filter_congr
    intro a _
    cases hm : decide (a = "message") <;> cases hd : decide (a = "disconnect") <;>
      cases hce : decide (a = "connect_error") <;> cases hct : decide (a = "connect_timeout") <;>
      simp [ne_eq, hm, hd, hce, hct]

end SocketClient

namespace EBSCO

/-- An EBSCO record item `{Name, Data}`; `Data := none` models a missing
(`undefined`/`null`) field, `some ""` an empty string (both falsy in the
source's `item?.Data || 'Not available'`). -/
structure Item where
  Name : String
  Data : Option String
  deriving Repr, DecidableEq

/-- A `{Sublocation, ShelfLocator}` copy-information entry. -/
structure CopyInformation where
  Sublocation : String
  ShelfLocator : String
  deriving Repr, DecidableEq

/-- The `HoldingSimple` wrapper with its optional `CopyInformationList`. -/
structure HoldingSimple where
  CopyInformationList : Option (List CopyInformation)
  deriving Repr, DecidableEq

/-- One entry of a record's `Holdings` array. -/
structure Holdings where
  HoldingSimple : HoldingSimple
  deriving Repr, DecidableEq

/-- The record header carrying the optional `PubType`. -/
structure Header where
  PubType : Option String
  deriving Repr, DecidableEq

/-- A raw EBSCO search record; `none` models missing optional fields. -/
structure Record where
  Items : Option (List Item)
  Header : Option Header
  Holdings : Option (List Holdings)
  deriving Repr, DecidableEq

/-- The nested `SearchResponse.SearchResult.Data.Records` shape. -/
structure SearchData where
  Records : List Record
  deriving Repr, DecidableEq

structure SearchResult where
  Data : SearchData
  deriving Repr, DecidableEq

structure SearchResponse where
  SearchResult : SearchResult
  deriving Repr, DecidableEq

/-- The normalized display record produced by `transformToDisplayRecord`;
the publication year is `Option Nat` (`none` models JavaScript `NaN`). -/
structure DisplayRecord where
  title : String
  author : String
  publicationYear : Option Nat
  bookType : String
  subjects : String
  locationInformation : List CopyInformation
  deriving Repr, DecidableEq

/-- Embedding of `extractItemData` (lines 18–24): `'Not available'` when the item list is
missing or empty, when no item carries the given name, or when the matching
item's `Data` is falsy; otherwise that item's `Data`. -/
def extractItemData (items : Option (List Item)) (name : String) : String :=
  match items with
  | none => "Not available"
  | some l =>
    if l.isEmpty then "Not available"
    else
      match l.find? (fun i => i.Name == name) with
      | none => "Not available"
      | some i =>
        match i.Data with
        | none => "Not available"
        | some d => if d = "" then "Not available" else d

/-- Leftmost run of four consecutive digits, as matched by the source's
four-digit regular expression, read as a number. -/
def findFourDigits : List Char → Option Nat
  | [] => none
  | a :: rest =>
    match rest with
    | b :: c :: d :: _ =>
      if a.isDigit && b.isDigit && c.isDigit && d.isDigit then
        some ((a.toNat - 48) * 1000 + (b.toNat - 48) * 100 +
              (c.toNat - 48) * 10 + (d.toNat - 48))
      else findFourDigits rest
    | _ => none

/-- Embedding of `extractPublicationYear` (lines 33–46): the first four-digit run of the
`TitleSource` item, `none` (JavaScript `NaN`) otherwise. -/
def extractPublicationYear (items : Option (List Item)) : Option Nat :=
  match items with
  | none => none
  | some l =>
    if l.isEmpty then none
    else findFourDigits (extractItemData (some l) "TitleSource").toList

/-- Embedding of `extractSubjects` (lines 55–61). -/
def extractSubjects (items : Option (List Item)) : String :=
  match items with
  | none => "Not available"
  | some l =>
    if l.isEmpty then "Not available"
    else
      let subjectData := extractItemData (some l) "Subject"
      if subjectData = "" then "Not available" else subjectData

/-- Embedding of `extractLocationInformation` (lines 70–81).  The source's final ternary
`locationInformation ? locationInformation : [...]` always takes the first
branch, because a JavaScript array (even an empty one) is truthy, so the
`'Not available'` fallback entry is unreachable. -/
def extractLocationInformation (record : Option Record) : List CopyInformation :=
  match record with
  | none => []
  | some r =>
    match r.Holdings with
    | none => []
    | some hs =>
      match hs.head? with
      | none => []
      | some h =>
        match h.HoldingSimple.CopyInformationList with
        | none => []
        | some copyInformationList => copyInformationList

/-- Embedding of `transformToDisplayRecord` (lines 91–108); `record?.Items?.map(i => i) || []`
is the item list when present (an empty array is truthy) and `[]` otherwise. -/
def transformToDisplayRecord (record : Record) : DisplayRecord :=
  let items : List Item :=
    match record.Items with
    | none => []
    | some l => l.map fun item => item
  { title := extractItemData (some items) "Title"
    author := extractItemData (some items) "Author"
    publicationYear := extractPublicationYear (some items)
    bookType :=
      match record.Header with
      | none => "Not available"
      | some h =>
        match h.PubType with
        | none => "Not available"
        | some p => if p = "" then "Not available" else p
    subjects := extractSubjects (some items)
    locationInformation := extractLocationInformation (some record) }

/-- Embedding of `queryEbscoApi` (lines 121–149), with the outcome of the external
`performSearch` call supplied as an explicit parameter (errors are modelled
as strings): a failed search propagates as `error`, a successful one maps
`transformToDisplayRecord` over the returned records. -/
def queryEbscoApi (performSearchResult : Except String SearchResponse) :
    Except String (List DisplayRecord) :=
  match performSearchResult with
  | Except.error e => Except.error e
  | Except.ok response =>
      Except.ok (response.SearchResult.Data.Records.map transformToDisplayRecord)

/-- Embedding of `searchForBook` (lines 163–177): throws `"No results found due to an
error."` when the query fails and `"No results found"` when it succeeds with
an empty record list; returns the records otherwise. -/
def searchForBook (performSearchResult : Except String SearchResponse) :
    Except String (List DisplayRecord) :=
  match queryEbscoApi performSearchResult with
  | Except.error _ => Except.error "No results found due to an error."
  | Except.ok data =>
      if data.length > 0 then Except.ok data else Except.error "No results found"

/-- A concrete search record used to exercise the adapter. -/
def sampleRecord : Record :=
  { Items := some
      [ { Name := "Title", Data := some "Dune" }
      , { Name := "Author", Data := some "Frank Herbert" }
      , { Name := "TitleSource", Data := some "Chilton Books, 1965." }
      , { Name := "Subject", Data := some "Science fiction" } ]
    Header := some { PubType := some "Book" }
    Holdings := some
      [ { HoldingSimple :=
            { CopyInformationList := some
                [ { Sublocation := "King Library", ShelfLocator := "PS3558" } ] } } ] }

/-- The search response wrapping `sampleRecord`. -/
def sampleResponse : SearchResponse :=
  { SearchResult := { Data := { Records := [sampleRecord] } } }

/-- A search response whose record list is empty. -/
def emptyResponse : SearchResponse :=
  { SearchResult := { Data := { Records := [] } } }

/-- C8: `searchForBook` never returns an empty list: a successful return is
nonempty; a successful search with zero records throws `"No results found"`;
a failed search throws `"No results found due to an error."` instead of
returning partial data. -/
theorem searchForBook_no_empty_success :
    (∀ (pr : Except String SearchResponse) (l : List DisplayRecord),
        searchForBook pr = Except.ok l → l ≠ []) ∧
    (∀ e : String,
        searchForBook (Except.error e) = Except.error "No results found due to an error.") ∧
    (∀ resp : SearchResponse, resp.SearchResult.Data.Records = [] →
        searchForBook (Except.ok resp) = Except.error "No results found") := by
  refine ⟨fun pr l h => ?_, fun e => rfl, fun resp hresp => ?_⟩
  · cases pr with
    | error e => simp [searchForBook, queryEbscoApi] at h
    | ok resp =>
      by_cases hr : resp.SearchResult.Data.Records = []
      · simp [searchForBook, queryEbscoApi, hr] at h
      · have hlen : 0 < resp.SearchResult.Data.Records.length := List.length_pos.mpr hr
        simp [searchForBook, queryEbscoApi, hlen] at h
        intro hnil
        rw [hnil] at h
        exact hr (List.map_eq_nil_iff.mp h)
  · simp [searchForBook, queryEbscoApi, hresp]

/-- Witness for C8: the one-record response succeeds with a nonempty list,
an error outcome and a zero-record outcome each throw. -/
theorem searchForBook_no_empty_success_witness :
    (transformToDisplayRecord sampleRecord :: ([] : List DisplayRecord)) ≠ [] ∧
    searchForBook (Except.error "boom") =
      Except.error "No results found due to an error." ∧
    searchForBook (Except.ok emptyResponse) = Except.error "No results found" :=
  ⟨searchForBook_no_empty_success.1 (Except.ok sampleResponse)
      [transformToDisplayRecord sampleRecord] rfl,
   searchForBook_no_empty_success.2.1 "boom",
   searchForBook_no_empty_success.2.2 emptyResponse rfl⟩

lemma extractItemData_na_or_nonempty (items : Option (List Item)) (name : String) :
    extractItemData items name = "Not available" ∨ extractItemData items name ≠ "" := by
  cases items with
  | none => exact Or.inl rfl
  | some l =>
    by_cases hl : l.isEmpty
    · simp [extractItemData, hl]
    · cases hfind : l.find? (fun i => i.Name == name) with
      | none => simp [extractItemData, hl, hfind]
      | some i =>
        cases hdata : i.Data with
        | none => simp [extractItemData, hl, hfind, hdata]
        | some d =>
          by_cases hd : d = "" <;> simp [extractItemData, hl, hfind, hdata, hd]

lemma extractSubjects_na_or_nonempty (items : Option (List Item)) :
    extractSubjects items = "Not available" ∨ extractSubjects items ≠ "" := by
  unfold extractSubjects
  cases items with
  | none => exact Or.inl rfl
  | some l =>
    by_cases hl : l.isEmpty
    · simp [hl]
    · by_cases hs : extractItemData (some l) "Subject" = "" <;> simp [hl, hs]

/-- C10: `extractItemData` is total: it yields `'Not available'` when the
list is missing or empty, when no item matches the name, or when the match's
`Data` is falsy, and the match's `Data` otherwise; consequently every field
of `transformToDisplayRecord` that it feeds (title, author, subjects) is a
defined string — either `'Not available'` or a nonempty data value. -/
theorem extractItemData_total :
    (∀ name : String, extractItemData none name = "Not available") ∧
    (∀ name : String, extractItemData (some []) name = "Not available") ∧
    (∀ (l : List Item) (name : String),
        l.find? (fun i => i.Name == name) = none →
        extractItemData (some l) name = "Not available") ∧
    (∀ (l : List Item) (name : String) (i : Item),
        l.find? (fun j => j.Name == name) = some i →
        (i.Data = none ∨ i.Data = some "") →
        extractItemData (some l) name = "Not available") ∧
    (∀ (l : List Item) (name : String) (i : Item) (d : String),
        l.find? (fun j => j.Name == name) = some i →
        i.Data = some d → d ≠ "" →
        extractItemData (some l) name = d) ∧
    (∀ r : Record,
        ((transformToDisplayRecord r).title = "Not available" ∨
          (transformToDisplayRecord r).title ≠ "") ∧
        ((transformToDisplayRecord r).author = "Not available" ∨
          (transformToDisplayRecord r).author ≠ "") ∧
        ((transformToDisplayRecord r).subjects = "Not available" ∨
          (transformToDisplayRecord r).subjects ≠ "")) := by
  refine ⟨fun name => rfl, fun name => rfl, fun l name hf => ?_, fun l name i hf hd => ?_,
      fun l name i d hf hd hd0 => ?_, fun r => ?_⟩
  · unfold extractItemData
    by_cases hl : l.isEmpty <;> simp [hl, hf]
  · have hl : ¬l.isEmpty := by
      intro hl
      rw [List.isEmpty_iff] at hl
      subst hl
      simp at hf
    unfold extractItemData
    rcases hd with hd | hd <;> simp [hl, hf, hd]
  · have hl : ¬l.isEmpty := by
      intro hl
      rw [List.isEmpty_iff] at hl
      subst hl
      simp at hf
    unfold extractItemData
    simp [hl, hf, hd, hd0]
  · have h1 := extractItemData_na_or_nonempty
      (some (match r.Items with | none => [] | some l => l.map fun item => item)) "Title"
    have h2 := extractItemData_na_or_nonempty
      (some (match r.Items with | none => [] | some l => l.map fun item => item)) "Author"
    have h3 := extractSubjects_na_or_nonempty
      (some (match r.Items with | none => [] | some l => l.map fun item => item))
    exact ⟨h1, h2, h3⟩

/-- Witness for C10: on a concrete one-item list the extractor returns the
item's data, and on a list without the name it returns `'Not available'`. -/
theorem extractItemData_total_witness :
    extractItemData (some [{ Name := "Title", Data := some "Dune" }]) "Title" = "Dune" ∧
    extractItemData (some [{ Name := "Title", Data := some "Dune" }]) "Author" =
      "Not available" :=
  ⟨extractItemData_total.2.2.2.2.1 [{ Name := "Title", Data := some "Dune" }]
      "Title" { Name := "Title", Data := some "Dune" } "Dune" rfl rfl (by decide),
   extractItemData_total.2.2.1 [{ Name := "Title", Data := some "Dune" }] "Author" rfl⟩

end EBSCO

namespace CancelTool

/-- The `{success, error}` outcome of `CancelReservationToolService.run`;
`error := none` models an absent (`undefined`/`null`) error field. -/
structure CancelResult where
  success : Bool
  error : Option String
  deriving Repr, DecidableEq

/-- The message returned when the `bookingID` parameter is missing. -/
def missingBookingIDMessage : String :=
  "Cannot perform booking because missing parameter bookingID. Ask the customer to provide bookingID to perform booking\n"

/-- JavaScript template-literal rendering of the optional error field: an
absent value prints as the text `undefined`. -/
def renderOptionalError : Option String → String
  | some e => e
  | none => "undefined"

/-- The success message for a cancelled reservation. -/
def successMessage (bookingID : String) : String :=
  "Room reservation with ID: " ++ bookingID ++ " is cancelled successfully\n"

/-- The failure message for a reservation the API refused to cancel. -/
def failureMessage (bookingID : String) (error : Option String) : String :=
  "Room reservation with ID: " ++ bookingID ++
    " is not cancelled successfully. Error message: " ++ renderOptionalError error ++ "\n"

/-- Embedding of `toolRunForLlm` (part_000 lines 170–194), with the outcome of the
external cancellation call (`run`) supplied as an explicit parameter.  A
`bookingID` of `none` models both `null` and `undefined`.  The result pairs
the returned-or-thrown value with a flag recording whether the external API
was invoked. -/
def toolRunForLlm (bookingID : Option String)
    (apiOutcome : Except String CancelResult) : Except String String × Bool :=
  match bookingID with
  | none => (Except.ok missingBookingIDMessage, false)
  | some id =>
    if id = "null" ∨ id = "undefined" then (Except.ok missingBookingIDMessage, false)
    else
      match apiOutcome with
      | Except.ok response =>
        if response.success then (Except.ok (successMessage id), true)
        else (Except.ok (failureMessage id response.error), true)
      | Except.error e => (Except.error e, true)

/-- C9: a missing `bookingID` (`null`/`undefined` value or the literal
strings `'null'`/`'undefined'`) yields the textual missing-parameter
explanation with no API call and no thrown error; a present `bookingID`
whose API call yields a result returns the textual success or failure
message reflecting that result. -/
theorem toolRunForLlm_missing_param :
    (∀ api : Except String CancelResult,
        toolRunForLlm none api = (Except.ok missingBookingIDMessage, false)) ∧
    (∀ api : Except String CancelResult,
        toolRunForLlm (some "null") api = (Except.ok missingBookingIDMessage, false)) ∧
    (∀ api : Except String CancelResult,
        toolRunForLlm (some "undefined") api = (Except.ok missingBookingIDMessage, false)) ∧
    (∀ (id : String) (r : CancelResult), id ≠ "null" → id ≠ "undefined" →
        toolRunForLlm (some id) (Except.ok r) =
          (Except.ok
            (if r.success then successMessage id else failureMessage id r.error), true)) := by
  refine ⟨fun api => rfl, fun api => by simp [toolRunForLlm], fun api => by simp [toolRunForLlm],
    fun id r h1 h2 => ?_⟩
  simp only [toolRunForLlm, h1, h2, or_self, if_false]
  cases r.success <;> simp

/-- Witness for C9: a present `bookingID` with a successful API outcome
returns the success message. -/
theorem toolRunForLlm_missing_param_witness :
    ("abc123" ≠ "null") ∧ ("abc123" ≠ "undefined") ∧
    toolRunForLlm (some "abc123") (Except.ok { success := true, error := none }) =
      (Except.ok (successMessage "abc123"), true) :=
  ⟨by decide, by decide, by
    have h := toolRunForLlm_missing_param.2.2.2 "abc123"
      { success := true, error := none } (by decide) (by decide)
    simpa using h⟩

end CancelTool
